import Mathlib

/-!
Verification of the clip-to-short pipeline in `src/clipbot.py`
(`YouTubeShortsAutomation` and `main`), as a shallow embedding in Lean.

Strings are modelled as Lean `String` / `List Char`; ASCII case folding
(`Char.toLower` / `Char.toUpper`) matches Python `str.lower()` /
`str.upper()` on the ASCII alphabet, which covers every keyword and
credential name occurring in the program.  Machine effects (HTTP calls,
the filesystem, the media engine) are modelled by explicit outcome
records passed to the embedded control flow, and by traces of the
actions the code performs.
-/

set_option maxHeartbeats 1000000

namespace ClipBot

/-! ## Keyword counting (`analyze_content`, clipbot.py lines 366-394)

Python's `str.count(sub)` counts *non-overlapping* occurrences by a
greedy left-to-right scan: after a match it resumes the scan
`len(sub)` characters further (and `s.count("")` is `len(s) + 1`).
`pyCount` is that function. -/

/-- Greedy left-to-right scan for non-overlapping matches of `sub`:
`skip` counts positions still covered by the previous match, at which a
new match may not start. -/
def pyCountAux (sub : List Char) : List Char → Nat → Nat
  | [], _ => 0
  | c :: t, skip =>
    if 0 < skip then pyCountAux sub t (skip - 1)
    else if sub.isPrefixOf (c :: t) then 1 + pyCountAux sub t (sub.length - 1)
    else pyCountAux sub t 0

/-- Python `s.count(sub)`: greedy non-overlapping substring count
(`s.count("")` is `len(s) + 1`). -/
def pyCount (sub s : List Char) : Nat :=
  if sub.isEmpty then s.length + 1 else pyCountAux sub s 0

/-- Number of (possibly overlapping) positions at which `sub` occurs in
the list: the counting mode the specification text describes. -/
def countOverlap (sub : List Char) : List Char → Nat
  | [] => if sub.isEmpty then 1 else 0
  | c :: t => (if sub.isPrefixOf (c :: t) then 1 else 0) + countOverlap sub t

/-- `transcription.lower()` on the character sequence (ASCII case fold,
agreeing with Python on the ASCII range). -/
def lowerStr (s : String) : List Char := s.toList.map Char.toLower

/-- Keyword list of the `excitement` category (clipbot.py line 369). -/
def excitement_keywords : List String :=
  ["wow", "amazing", "incredible", "perfect", "clutch", "insane", "crazy"]

/-- Keyword list of the `action` category (line 370). -/
def action_keywords : List String :=
  ["headshot", "kill", "victory", "win", "champion", "eliminated"]

/-- Keyword list of the `reaction` category (line 371). -/
def reaction_keywords : List String :=
  ["omg", "wtf", "holy", "jesus", "god", "damn"]

/-- Keyword list of the `skill` category (line 372). -/
def skill_keywords : List String :=
  ["pro", "skilled", "talent", "god-tier", "masterclass"]

/-- The `highlight_keywords` mapping, in Python dict insertion order. -/
def highlight_keywords : List (String × List String) :=
  [("excitement", excitement_keywords),
   ("action", action_keywords),
   ("reaction", reaction_keywords),
   ("skill", skill_keywords)]

/-- `sum(transcription_lower.count(keyword) for keyword in keywords)`
(line 384). -/
def categoryScore (t : List Char) (kws : List String) : Nat :=
  (kws.map (fun k => pyCount k.toList t)).sum

/-- Sum of overlapping occurrence counts over a keyword list: the
score the specification's wording ("overlapping matches included")
would assign to a category. -/
def categoryScoreOverlap (t : List Char) (kws : List String) : Nat :=
  (kws.map (fun k => countOverlap k.toList t)).sum

/-- The `content_analysis` dict built by `analyze_content`. -/
structure ContentAnalysis where
  total_score : Nat
  categories : List (String × Nat)
  dominant_emotion : String
deriving Repr, DecidableEq

/-- Python `max(items, key=lambda x: x[1])` starting from a first item:
the accumulator is replaced only when the new key is strictly greater,
so among equal maxima the earliest item wins (line 390). -/
def pyMaxBySnd (x : String × Nat) (rest : List (String × Nat)) : String × Nat :=
  rest.foldl (fun best y => if best.2 < y.2 then y else best) x

/-- `analyze_content` (lines 366-394): per-category keyword counts on
the lower-cased transcription, their sum as `total_score`, and the
dominant emotion (first category of maximal count if that count is
positive, otherwise `"neutral"`). -/
def analyze_content (transcription : String) : ContentAnalysis :=
  let tl := lowerStr transcription
  let cats := highlight_keywords.map (fun p => (p.1, categoryScore tl p.2))
  let total := (cats.map Prod.snd).sum
  let dominant :=
    match cats with
    | [] => "neutral"
    | x :: rest =>
      let m := pyMaxBySnd x rest
      if 0 < m.2 then m.1 else "neutral"
  ⟨total, cats, dominant⟩

/-! ## Title generation (`generate_engaging_title`, lines 489-516)

`random.choice(selected_titles)` draws one element of the selected list
uniformly at random; the draw is modelled by an arbitrary index into the
list, so every property proved for all indices holds for every possible
draw. -/

/-- The `templates` dict of `generate_engaging_title` (lines 491-512),
in insertion order.  Its keys are `excitement`, `action`, `skill` and
`neutral`: the analyzer's `reaction` category has no entry. -/
def title_templates (streamer_name : String) : List (String × List String) :=
  [("excitement",
     ["THIS " ++ streamer_name.map Char.toUpper ++ " MOMENT IS INSANE! 🔥",
      streamer_name ++ " GOES ABSOLUTELY CRAZY! 😱",
      "UNBELIEVABLE " ++ streamer_name ++ " PLAY! 🤯"]),
   ("action",
     [streamer_name ++ " DESTROYS EVERYONE! 💀",
      "UNSTOPPABLE " ++ streamer_name ++ " GAMEPLAY! 🎯",
      streamer_name ++ " DOMINATION! ⚡"]),
   ("skill",
     [streamer_name ++ " IS A LITERAL GOD! 👑",
      "PRO LEVEL " ++ streamer_name ++ " SKILLS! 🎯",
      streamer_name ++ " MASTERCLASS! 🔥"]),
   ("neutral",
     ["BEST " ++ streamer_name ++ " MOMENTS! 🔥",
      streamer_name ++ " HIGHLIGHTS! ⭐",
      "EPIC " ++ streamer_name ++ " CLIP! 🎮"])]

/-- The `neutral` template list (lines 507-511). -/
def neutral_templates (streamer_name : String) : List String :=
  ["BEST " ++ streamer_name ++ " MOMENTS! 🔥",
   streamer_name ++ " HIGHLIGHTS! ⭐",
   "EPIC " ++ streamer_name ++ " CLIP! 🎮"]

/-- `templates.get(emotion, templates['neutral'])` (line 515): the list
`random.choice` draws from. -/
def selected_title_pool (content_analysis : ContentAnalysis) (streamer_name : String) :
    List String :=
  let templates := title_templates streamer_name
  match templates.lookup content_analysis.dominant_emotion with
  | some l => l
  | none => (templates.lookup "neutral").getD []

/-- `random.choice(selected_titles)` with the random draw expressed as
an index `i` (uniform over indices of the list). -/
def generate_engaging_title (content_analysis : ContentAnalysis)
    (streamer_name : String) (i : Nat) : Option String :=
  let selected := selected_title_pool content_analysis streamer_name
  selected.get? (i % selected.length)

/-! ## Resumable upload (`upload_to_youtube_shorts`, lines 518-603)

The two HTTP exchanges are modelled by their observable outcomes: the
initiation response carries a status code and an optional `Location`
header; the PUT response carries a status code and the optional `id`
field of its JSON body. -/

/-- Outcome of the upload-initiation POST (lines 552-568). -/
structure InitResponse where
  status : Nat
  location : Option String
deriving Repr, DecidableEq

/-- Outcome of the video-bytes PUT (lines 579-588). -/
structure PutResponse where
  status : Nat
  videoId : Option String
deriving Repr, DecidableEq

/-- What `upload_to_youtube_shorts` did: whether the PUT of the video
bytes was attempted, and the Boolean it returned. -/
structure UploadTrace where
  putAttempted : Bool
  success : Bool
deriving Repr, DecidableEq

/-- `upload_to_youtube_shorts` (lines 518-603): fails without a token;
requires initiation status 200/201 and a `Location` header before the
PUT; after the PUT requires status 200/201 and a video id in the JSON
body. -/
def upload_to_youtube_shorts (access_token : Option String)
    (init_response : InitResponse) (upload_response : PutResponse) : UploadTrace :=
  match access_token with
  | none => ⟨false, false⟩
  | some _ =>
    if ¬(init_response.status = 200 ∨ init_response.status = 201) then ⟨false, false⟩
    else
      match init_response.location with
      | none => ⟨false, false⟩
      | some _ =>
        if upload_response.status = 200 ∨ upload_response.status = 201 then
          match upload_response.videoId with
          | some _ => ⟨true, true⟩
          | none => ⟨true, false⟩
        else ⟨true, false⟩

/-! ## Trimming (`trim_video`, lines 455-487)

Durations are modelled as rationals; the claims are about the exact
interval arithmetic of the subclip call. -/

/-- The time interval of the source that `trim_video` re-encodes
(lines 466-472): the centred window of length `max_duration` when the
source is longer, the whole clip `[0, duration]` otherwise. -/
def trim_interval (duration max_duration : ℚ) : ℚ × ℚ :=
  if max_duration < duration then
    let start_time := max 0 ((duration - max_duration) / 2)
    (start_time, start_time + max_duration)
  else
    (0, duration)

/-! ## Credentials (`__init__` lines 47-80, `_validate_credentials` lines 82-97) -/

/-- The environment as seen through `os.getenv`: each variable either
absent (`none`) or bound to a string (possibly empty). -/
structure Env where
  twitch_client_id : Option String
  twitch_client_secret : Option String
  twitch_streamer_name : Option String
  youtube_api_key : Option String
  youtube_client_id : Option String
  youtube_client_secret : Option String
  youtube_refresh_token : Option String
deriving Repr, DecidableEq

/-- Python truthiness of an optional string: `None` and `""` are falsy. -/
def truthy : Option String → Bool
  | none => false
  | some s => !s.isEmpty

/-- The `required_creds` dict (lines 84-92), in insertion order. -/
def required_creds (e : Env) : List (String × Option String) :=
  [("TWITCH_CLIENT_ID", e.twitch_client_id),
   ("TWITCH_CLIENT_SECRET", e.twitch_client_secret),
   ("TWITCH_STREAMER_NAME", e.twitch_streamer_name),
   ("YOUTUBE_API_KEY", e.youtube_api_key),
   ("YOUTUBE_CLIENT_ID", e.youtube_client_id),
   ("YOUTUBE_CLIENT_SECRET", e.youtube_client_secret),
   ("YOUTUBE_REFRESH_TOKEN", e.youtube_refresh_token)]

/-- `missing_creds = [key for key, value in required_creds.items() if not value]`
(line 94). -/
def missing_creds (e : Env) : List String :=
  ((required_creds e).filter (fun p => !truthy p.2)).map Prod.fst

/-- Python `", ".join l` (the joining used in the exception message of
line 97). -/
def join_comma : List String → String
  | [] => ""
  | [x] => x
  | x :: y :: t => x ++ ", " ++ join_comma (y :: t)

/-- The message of the exception raised at line 97. -/
def missing_message (m : List String) : String :=
  "Missing credentials: " ++ join_comma m

/-- `_validate_credentials` (lines 82-97): raises (modelled as
`Except.error` carrying the message) exactly when some required
credential is falsy. -/
def validate_credentials (e : Env) : Except String Unit :=
  let m := missing_creds e
  if m.isEmpty then Except.ok () else Except.error (missing_message m)

/-- One step performed by `__init__` (lines 47-80).  The constructor
`httpRequest` is the shape an outgoing network call would take (it is
what the `requests.*` calls elsewhere in the class perform); `__init__`
itself never emits it. -/
inductive InitStep where
  | readEnv (key : String)
  | loadWhisperModel
  | makeDir (dir : String)
  | validateCreds
  | httpRequest (method url : String)
deriving Repr, DecidableEq

/-- `true` iff the step is an outgoing network call. -/
def InitStep.isNetwork : InitStep → Bool
  | .httpRequest _ _ => true
  | _ => false

/-- The sequence of steps `__init__` performs, in program order
(lines 49-77): environment reads, the local Whisper model load, the
three directory creations, then credential validation.  No step is an
outgoing network call. -/
def init_steps : List InitStep :=
  [InitStep.readEnv "TWITCH_CLIENT_ID",
   InitStep.readEnv "TWITCH_CLIENT_SECRET",
   InitStep.readEnv "TWITCH_STREAMER_NAME",
   InitStep.readEnv "YOUTUBE_API_KEY",
   InitStep.readEnv "YOUTUBE_CLIENT_ID",
   InitStep.readEnv "YOUTUBE_CLIENT_SECRET",
   InitStep.readEnv "YOUTUBE_REFRESH_TOKEN",
   InitStep.readEnv "YOUTUBE_STREAMERS",
   InitStep.loadWhisperModel,
   InitStep.makeDir "downloads",
   InitStep.makeDir "processed",
   InitStep.makeDir "uploads",
   InitStep.validateCreds]

/-! ## `YOUTUBE_STREAMERS` parsing (`__init__` line 58) -/

/-- Python `s.split(',')`: split on every comma, keeping empty pieces
(so `''.split(',') == ['']`). -/
def pySplitComma : List Char → List (List Char)
  | [] => [[]]
  | c :: t =>
    if c = ',' then [] :: pySplitComma t
    else
      match pySplitComma t with
      | [] => [[c]]
      | h :: r => (c :: h) :: r

/-- `os.getenv('YOUTUBE_STREAMERS', '').split(',')` (line 58). -/
def youtube_streamers_of_env (v : Option String) : List String :=
  (pySplitComma (v.getD "").toList).map (fun cs => String.mk cs)

/-! ## Orchestration (`process_clips`, lines 605-686)

Each candidate clip is modelled by the outcomes its processing steps
would produce; `processOneClip` is the body of the `for` loop, and the
trace records which stages were invoked and whether the per-clip
cleanup loop (lines 671-676) was reached. -/

/-- Step outcomes for one candidate clip: whether `download_clip`
returns `True`, whether the downloaded file passes the existence/size
check (line 639), and whether `create_vertical_video`, `trim_video`
and `upload_to_youtube_shorts` return `True`. -/
structure ClipSteps where
  downloadOk : Bool
  fileValid : Bool
  verticalOk : Bool
  trimOk : Bool
  uploadOk : Bool
deriving Repr, DecidableEq

/-- What the loop body did for one clip. -/
structure ClipTrace where
  verticalCalled : Bool
  trimCalled : Bool
  uploadCalled : Bool
  cleanupAttempted : Bool
  uploaded : Bool
deriving Repr, DecidableEq

/-- Body of the `for clip in ...` loop (lines 622-683).  Every `continue`
taken before line 671 skips the cleanup loop, so cleanup is attempted
only when download, file validation, vertical reformat and trim all
succeeded and control reached the upload step. -/
def processOneClip (c : ClipSteps) : ClipTrace :=
  if ¬c.downloadOk then ⟨false, false, false, false, false⟩
  else if ¬c.fileValid then ⟨false, false, false, false, false⟩
  else if ¬c.verticalOk then ⟨true, false, false, false, false⟩
  else if ¬c.trimOk then ⟨true, true, false, false, false⟩
  else ⟨true, true, true, true, c.uploadOk⟩

/-- The three paths the cleanup loop removes when it runs (line 671):
raw download, vertical reformat, trimmed final. -/
def cleanup_paths (filename : String) : List String :=
  ["downloads/" ++ filename,
   "processed/vertical_" ++ filename,
   "uploads/final_" ++ filename]

/-- `max_uploads = 3` (line 616). -/
def max_uploads : Nat := 3

/-- The loop of `process_clips` over the candidate slice, threading
`processed_count`: stops early once the count reaches `max_uploads`
(lines 619-620), and records each processed clip with its trace. -/
def processLoop : List ClipSteps → Nat → Nat × List (ClipSteps × ClipTrace)
  | [], n => (n, [])
  | c :: rest, n =>
    if max_uploads ≤ n then (n, [])
    else
      let tr := processOneClip c
      let res := processLoop rest (if tr.uploaded then n + 1 else n)
      (res.1, (c, tr) :: res.2)

/-- `process_clips` (lines 605-686) on a nonempty candidate list:
iterates over `clips[:max_uploads * 2]` and returns the final
`processed_count` together with the per-clip traces. -/
def process_clips (clips : List ClipSteps) : Nat × List (ClipSteps × ClipTrace) :=
  processLoop (clips.take (max_uploads * 2)) 0

/-! ## Process entry (`main` lines 688-697 and the `__main__` guard
lines 699-700) -/

/-- The value `return`ed by `main` (lines 688-697): `0` when
construction and `process_clips` complete, `1` when either raises. -/
def main_return (run : Except String Nat) : Nat :=
  match run with
  | Except.ok _ => 0
  | Except.error _ => 1

/-- The process exit status produced by the `if __name__ == "__main__":
main()` guard (lines 699-700): the guard calls `main()` and discards
its return value, and `main` catches every exception, so the
interpreter always exits normally with status 0. -/
def script_exit (run : Except String Nat) : Nat :=
  let _ := main_return run
  0

/-! ## Theorems -/

/-- The dominant-category selection rule as the specification words it:
`"neutral"` when every count is zero, otherwise the first category (in
insertion order excitement, action, reaction, skill) whose count is
maximal. -/
def specDominant (e a r s : Nat) : String :=
  if e = 0 ∧ a = 0 ∧ r = 0 ∧ s = 0 then "neutral"
  else if a ≤ e ∧ r ≤ e ∧ s ≤ e then "excitement"
  else if r ≤ a ∧ s ≤ a then "action"
  else if s ≤ r then "reaction"
  else "skill"

/-- Python's first-maximum `max` over the four category scores agrees
with the specification's tie-breaking rule `specDominant`. -/
theorem dominant_cases (e a r s : Nat) :
    (if 0 < (pyMaxBySnd ("excitement", e) [("action", a), ("reaction", r), ("skill", s)]).2
     then (pyMaxBySnd ("excitement", e) [("action", a), ("reaction", r), ("skill", s)]).1
     else "neutral") = specDominant e a r s := by
  unfold pyMaxBySnd specDominant
  simp only [List.foldl]
  repeat' split
  all_goals first | rfl | omega

/-- C1, counterexample: on the transcript `"wowow"` the code's
excitement score is 1 (Python `str.count` is non-overlapping), while
the claim's sum of possibly overlapping occurrences of the excitement
keywords is 2 (the keyword `"wow"` occurs at two overlapping
positions), so the claim as stated is false at this input. -/
theorem c1_overlap_counterexample :
    (analyze_content "wowow").categories.lookup "excitement" = some 1 ∧
    categoryScoreOverlap (lowerStr "wowow") excitement_keywords = 2 ∧
    (1 : Nat) ≠ 2 := by decide

/-- C1, amended: for every transcript, `analyze_content`'s score for
each of the four categories equals the sum, over that category's fixed
keyword list, of the number of NON-overlapping (greedy, Python
`str.count`) substring occurrences of the keyword in the lower-cased
transcript, and `total_score` equals the sum of the four category
scores. -/
theorem c1_scores_nonoverlapping (t : String) :
    (analyze_content t).categories =
      [("excitement", categoryScore (lowerStr t) excitement_keywords),
       ("action", categoryScore (lowerStr t) action_keywords),
       ("reaction", categoryScore (lowerStr t) reaction_keywords),
       ("skill", categoryScore (lowerStr t) skill_keywords)] ∧
    (analyze_content t).total_score =
      categoryScore (lowerStr t) excitement_keywords +
      categoryScore (lowerStr t) action_keywords +
      categoryScore (lowerStr t) reaction_keywords +
      categoryScore (lowerStr t) skill_keywords := by
  constructor
  · rfl
  · show (List.map Prod.snd _).sum = _
    simp [analyze_content, highlight_keywords]
    ring

/-- C8: `analyze_content` on the empty transcript returns all-zero
scores and dominant category `"neutral"`; in general the dominant
category is the first category, in insertion order excitement, action,
reaction, skill, whose count is maximal, and `"neutral"` whenever all
counts are zero (`specDominant`). -/
theorem c8_empty_and_dominant :
    analyze_content "" =
      ⟨0, [("excitement", 0), ("action", 0), ("reaction", 0), ("skill", 0)], "neutral"⟩ ∧
    ∀ t : String,
      (analyze_content t).dominant_emotion =
        specDominant (categoryScore (lowerStr t) excitement_keywords)
          (categoryScore (lowerStr t) action_keywords)
          (categoryScore (lowerStr t) reaction_keywords)
          (categoryScore (lowerStr t) skill_keywords) := by
  refine ⟨by decide, fun t => ?_⟩
  have h := dominant_cases (categoryScore (lowerStr t) excitement_keywords)
    (categoryScore (lowerStr t) action_keywords)
    (categoryScore (lowerStr t) reaction_keywords)
    (categoryScore (lowerStr t) skill_keywords)
  simpa [analyze_content, highlight_keywords] using h

/-- A candidate clip whose download step fails (everything later would
have succeeded had it run). -/
def failedDownloadClip : ClipSteps := ⟨false, true, true, true, true⟩

/-- C2, counterexample: for a clip whose download step returned
failure, the loop body `continue`s before the cleanup loop at
clipbot.py line 671, so removal of the local artifacts is NOT
attempted — refuting the claim that cleanup is attempted once a clip's
processing ends regardless of outcome. -/
theorem c2_cleanup_counterexample :
    (processOneClip failedDownloadClip).cleanupAttempted = false := by decide

/-- C2, amended: the cleanup of the three possible local artifacts is
attempted exactly when the clip reaches the upload step, i.e. when
download, the file size check, the vertical reformat and the trim all
succeeded (whether or not the upload itself succeeds); every earlier
failure skips the per-clip cleanup, so partial artifacts can survive
it. -/
theorem c2_cleanup_iff (c : ClipSteps) :
    (processOneClip c).cleanupAttempted =
      (c.downloadOk && c.fileValid && c.verticalOk && c.trimOk) := by
  rcases c with ⟨d, fv, v, tr, u⟩
  cases d <;> cases fv <;> cases v <;> cases tr <;> rfl

/-- C3, counterexample: when initialization or top-level processing
raises, `main` is invoked by the bare `main()` call under the
`__main__` guard, its return value `1` is discarded, and the process
exits with status 0, not 1 — refuting the claim that the process exits
with status 1 in that case. -/
theorem c3_exit_counterexample :
    script_exit (Except.error "initialization failed") = 0 ∧
    script_exit (Except.error "initialization failed") ≠ 1 := by decide

/-- C3, amended: `main` RETURNS 0 on normal completion (including
zero-clip runs) and 1 when initialization or top-level processing
raises, but the module entry `if __name__ == "__main__": main()`
discards that return value, so the process exit status is 0 in every
case. -/
theorem c3_return_discarded :
    (∀ e : String, main_return (Except.error e) = 1) ∧
    (∀ n : Nat, main_return (Except.ok n) = 0) ∧
    (∀ run : Except String Nat, script_exit run = 0) :=
  ⟨fun _ => rfl, fun _ => rfl, fun _ => rfl⟩

/-- C10: when `YOUTUBE_STREAMERS` is unset or empty, line 58 sets the
streamer list to `''.split(',') == ['']`, a one-element list holding
the empty string, not the empty list. -/
theorem c10_streamers_empty_env :
    youtube_streamers_of_env none = [""] ∧
    youtube_streamers_of_env (some "") = [""] ∧
    youtube_streamers_of_env none ≠ ([] : List String) := by decide

/-- C5: a successful initiation status (200 or 201) without a
`Location` header makes `upload_to_youtube_shorts` return failure
without attempting the PUT of the video bytes; and a PUT success
status whose JSON body lacks a video identifier is likewise treated as
failure (with the PUT attempted). -/
theorem c5_upload_guards :
    (∀ (tok : String) (ir : InitResponse) (pr : PutResponse),
       (ir.status = 200 ∨ ir.status = 201) → ir.location = none →
       upload_to_youtube_shorts (some tok) ir pr = ⟨false, false⟩) ∧
    (∀ (tok : String) (ir : InitResponse) (pr : PutResponse) (u : String),
       ir.location = some u →
       (ir.status = 200 ∨ ir.status = 201) →
       (pr.status = 200 ∨ pr.status = 201) → pr.videoId = none →
       upload_to_youtube_shorts (some tok) ir pr = ⟨true, false⟩) := by
  constructor
  · rintro tok ⟨s, loc⟩ pr hs rfl
    simp [upload_to_youtube_shorts, hs]
  · rintro tok ⟨s, loc⟩ ⟨ps, pid⟩ u rfl hs hps rfl
    simp [upload_to_youtube_shorts, hs, hps]

/-- C5, witness: both guards of `c5_upload_guards` at concrete
responses. -/
theorem c5_witness :
    upload_to_youtube_shorts (some "tok") ⟨200, none⟩ ⟨200, some "vid"⟩ = ⟨false, false⟩ ∧
    upload_to_youtube_shorts (some "tok") ⟨201, some "sess"⟩ ⟨200, none⟩ = ⟨true, false⟩ :=
  ⟨c5_upload_guards.1 "tok" ⟨200, none⟩ ⟨200, some "vid"⟩ (Or.inl rfl) rfl,
   c5_upload_guards.2 "tok" ⟨201, some "sess"⟩ ⟨200, none⟩ "sess" rfl (Or.inr rfl) (Or.inl rfl) rfl⟩

/-- C7: a source longer than `max_duration` is trimmed to the centred
sub-interval of exactly `max_duration` seconds starting at
`(duration - max_duration) / 2`; a source at most `max_duration` long
is passed through whole; and a 50 s source with `max_duration = 40`
yields exactly the interval `[5, 45]`. -/
theorem c7_trim_centered :
    (∀ d m : ℚ, m < d →
       trim_interval d m = ((d - m) / 2, (d - m) / 2 + m) ∧
       ((d - m) / 2 + m) - (d - m) / 2 = m) ∧
    (∀ d m : ℚ, d ≤ m → trim_interval d m = (0, d)) ∧
    trim_interval 50 40 = (5, 45) := by
  refine ⟨fun d m h => ⟨?_, by ring⟩, fun d m h => ?_, ?_⟩
  · unfold trim_interval
    rw [if_pos h, max_eq_right (by linarith)]
  · unfold trim_interval
    rw [if_neg (not_lt.mpr h)]
  · norm_num [trim_interval]

/-- C7, witness: `c7_trim_centered` at the concrete durations 50 s
(trimmed) and 30 s (passed through) against the 40 s cap. -/
theorem c7_witness :
    trim_interval 50 40 = ((50 - 40) / 2, (50 - 40) / 2 + 40) ∧
    trim_interval 30 40 = (0, 30) :=
  ⟨(c7_trim_centered.1 50 40 (by norm_num)).1, c7_trim_centered.2.1 30 40 (by norm_num)⟩

/-- C9: when the dominant category is `"reaction"`,
`generate_engaging_title`'s template lookup falls back to the
`"neutral"` list (the templates dict has no `"reaction"` key), so the
random draw is taken uniformly from the three neutral templates; and
the analyzer can actually produce that category
(`analyze_content "omg"`). -/
theorem c9_reaction_uses_neutral (a : ContentAnalysis) (streamer : String)
    (h : a.dominant_emotion = "reaction") :
    selected_title_pool a streamer = neutral_templates streamer ∧
    (title_templates streamer).lookup "reaction" = none ∧
    (analyze_content "omg").dominant_emotion = "reaction" := by
  refine ⟨?_, rfl, by decide⟩
  unfold selected_title_pool
  rw [h]
  rfl

/-- C9, witness: `c9_reaction_uses_neutral` at the concrete analysis of
the transcript `"omg"`. -/
theorem c9_witness :
    selected_title_pool (analyze_content "omg") "streamer" = neutral_templates "streamer" :=
  (c9_reaction_uses_neutral (analyze_content "omg") "streamer" (by decide)).1

/-- Invariant of the orchestrator loop: starting from a count within
the cap, the final count stays within the cap, at most one trace per
candidate is produced, the count grows by exactly the number of
successful uploads, and every recorded trace is the loop body's result
on its clip. -/
theorem processLoop_spec (l : List ClipSteps) : ∀ n : Nat, n ≤ max_uploads →
    (processLoop l n).1 ≤ max_uploads ∧
    (processLoop l n).2.length ≤ l.length ∧
    (processLoop l n).1 =
      n + ((processLoop l n).2.filter (fun p => p.2.uploaded)).length ∧
    ∀ p ∈ (processLoop l n).2, p.2 = processOneClip p.1 := by
  induction l with
  | nil =>
    intro n hn
    simp [processLoop, hn]
  | cons c rest ih =>
    intro n hn
    by_cases h : max_uploads ≤ n
    · simp [processLoop, h, hn]
    · by_cases hu : (processOneClip c).uploaded
      · obtain ⟨ih1, ih2, ih3, ih4⟩ := ih (n + 1) (by omega)
        refine ⟨?_, ?_, ?_, ?_⟩
        · simpa [processLoop, if_neg h, hu] using ih1
        · simp only [processLoop, if_neg h, hu, if_true, List.length_cons]
          omega
        · simp only [processLoop, if_neg h, hu, if_true, List.filter_cons]
          simp [hu, ih3]
          omega
        · intro p hp
          simp only [processLoop, if_neg h, hu, if_true, List.mem_cons] at hp
          rcases hp with rfl | hp
          · rfl
          · exact ih4 p hp
      · simp only [Bool.not_eq_true] at hu
        obtain ⟨ih1, ih2, ih3, ih4⟩ := ih n hn
        refine ⟨?_, ?_, ?_, ?_⟩
        · simpa [processLoop, if_neg h, hu] using ih1
        · simp only [processLoop, if_neg h, hu, Bool.false_eq_true, if_false,
            List.length_cons]
          omega
        · simp only [processLoop, if_neg h, hu, Bool.false_eq_true, if_false,
            List.filter_cons]
          simp [hu, ih3]
        · intro p hp
          simp only [processLoop, if_neg h, hu, Bool.false_eq_true, if_false,
            List.mem_cons] at hp
          rcases hp with rfl | hp
          · rfl
          · exact ih4 p hp

/-- C4: every run of `process_clips` considers at most
`max_uploads * 2 = 6` candidate clips, never pushes the
successful-upload count past `max_uploads = 3` (the count equals the
number of recorded successful uploads, and the loop breaks once it
reaches the cap), and for a clip whose download step returned failure
neither the vertical reformatter nor the trimmer nor the uploader is
invoked. -/
theorem c4_run_bounds (clips : List ClipSteps) :
    (process_clips clips).2.length ≤ 6 ∧
    (process_clips clips).1 ≤ 3 ∧
    (process_clips clips).1 =
      ((process_clips clips).2.filter (fun p => p.2.uploaded)).length ∧
    ∀ p ∈ (process_clips clips).2, p.1.downloadOk = false →
      p.2.verticalCalled = false ∧ p.2.trimCalled = false ∧ p.2.uploadCalled = false := by
  obtain ⟨h1, h2, h3, h4⟩ :=
    processLoop_spec (clips.take (max_uploads * 2)) 0 (Nat.zero_le _)
  refine ⟨?_, h1, by simpa using h3, ?_⟩
  · calc (process_clips clips).2.length
        ≤ (clips.take (max_uploads * 2)).length := h2
      _ ≤ max_uploads * 2 := by
          rw [List.length_take]; exact min_le_left _ _
  · intro p hp hd
    have he := h4 p hp
    rcases p with ⟨c, tr⟩
    simp only at he
    subst he
    rcases c with ⟨d, fv, v, t, u⟩
    simp only at hd
    subst hd
    simp [processOneClip]

/-- C4, witness: `c4_run_bounds` at the one-clip candidate list whose
download fails. -/
theorem c4_witness :
    (process_clips [failedDownloadClip]).2.length ≤ 6 ∧
    (process_clips [failedDownloadClip]).1 ≤ 3 ∧
    ((failedDownloadClip, processOneClip failedDownloadClip).2.verticalCalled = false ∧
     (failedDownloadClip, processOneClip failedDownloadClip).2.trimCalled = false ∧
     (failedDownloadClip, processOneClip failedDownloadClip).2.uploadCalled = false) := by
  have h := c4_run_bounds [failedDownloadClip]
  exact ⟨h.1, h.2.1,
    h.2.2.2 (failedDownloadClip, processOneClip failedDownloadClip) (by decide) (by decide)⟩

/-- `toList` distributes over string append. -/
theorem toList_append (a b : String) : (a ++ b).toList = a.toList ++ b.toList := by
  simp [String.toList, String.data_append]

/-- Every element of a list occurs as a contiguous substring of its
comma-join. -/
theorem isInfix_toList_join_comma {k : String} :
    ∀ {m : List String}, k ∈ m → k.toList <:+: (join_comma m).toList := by
  intro m
  induction m with
  | nil => intro h; cases h
  | cons x t ih =>
    intro hk
    rcases List.mem_cons.mp hk with rfl | hk
    · cases t with
      | nil => exact ⟨[], [], by simp [join_comma]⟩
      | cons y u =>
        refine ⟨[], (", " ++ join_comma (y :: u)).toList, ?_⟩
        simp [join_comma, toList_append]
    · cases t with
      | nil => cases hk
      | cons y u =>
        obtain ⟨v, w, hvw⟩ := ih hk
        refine ⟨x.toList ++ ", ".toList ++ v, w, ?_⟩
        simp only [join_comma, toList_append]
        rw [← hvw]
        simp [List.append_assoc]

/-- A required credential with a falsy value lands in `missing_creds`. -/
theorem mem_missing_of_mem_required {e : Env} {k : String} {v : Option String}
    (hm : (k, v) ∈ required_creds e) (hv : truthy v = false) : k ∈ missing_creds e := by
  unfold missing_creds
  refine List.mem_map.mpr ⟨(k, v), ?_, rfl⟩
  refine List.mem_filter.mpr ⟨hm, ?_⟩
  simp [hv]

/-- C6: whenever a required credential is absent or empty,
`_validate_credentials` raises, and the exception message contains the
name of every missing credential (each such name is a contiguous
substring of the message); moreover no step of `__init__` — which runs
the validation — is an outgoing network call. -/
theorem c6_missing_creds (e : Env) :
    (∀ k v, (k, v) ∈ required_creds e → truthy v = false →
       ∃ msg, validate_credentials e = Except.error msg ∧ k.toList <:+: msg.toList) ∧
    init_steps.all (fun s => !s.isNetwork) = true := by
  refine ⟨?_, by decide⟩
  intro k v hm hv
  have hk : k ∈ missing_creds e := mem_missing_of_mem_required hm hv
  have hne : (missing_creds e).isEmpty = false := by
    cases hmc : missing_creds e with
    | nil => rw [hmc] at hk; cases hk
    | cons a b => simp [List.isEmpty]
  refine ⟨missing_message (missing_creds e), ?_, ?_⟩
  · unfold validate_credentials
    simp [hne]
  · unfold missing_message
    obtain ⟨v', w, hvw⟩ := isInfix_toList_join_comma hk
    refine ⟨"Missing credentials: ".toList ++ v', w, ?_⟩
    simp only [toList_append]
    rw [← hvw]
    simp [List.append_assoc]

/-- An environment missing exactly `TWITCH_CLIENT_ID`. -/
def envMissingTwitchId : Env :=
  ⟨none, some "sec", some "name", some "key", some "cid", some "csec", some "rtok"⟩

/-- C6, witness: `c6_missing_creds` at the concrete environment with
`TWITCH_CLIENT_ID` unset. -/
theorem c6_witness :
    ∃ msg, validate_credentials envMissingTwitchId = Except.error msg ∧
      "TWITCH_CLIENT_ID".toList <:+: msg.toList :=
  (c6_missing_creds envMissingTwitchId).1 "TWITCH_CLIENT_ID" none (by decide) (by decide)

end ClipBot
